import Mathlib

/-!
Verification of the node:os priority / username operations
(`ext/node/ops/os.rs`): permission gating, the Unix errno-based
`getpriority` / `setpriority` wrappers, and the Windows priority-class
translation with explicit handle lifecycle.

OS interaction is shallowly embedded: each platform's native calls are an
oracle record (`UnixOS` / `WinOS`), and every function additionally returns
the list of OS-visible events it performed, in order, so that claims about
"no OS call attempted" or "handle released on every exit path" are statable.
-/

/-- The error kinds this module produces: `permissionDenied` from the
capability check (carrying the descriptor string), `osError` wrapping
`std::io::Error::last_os_error()`, and `invalidArgument` from
`type_error("Invalid priority")`. -/
inductive NodeError where
  | permissionDenied (desc : String)
  | osError
  | invalidArgument (msg : String)
  deriving DecidableEq

/-- Modelled from the spec: `NodePermissions::check_sys` is a trait whose
implementations live outside this source file; the capability decision is
modelled as a boolean oracle over (operation name, descriptor). -/
structure Permissions where
  allow : String → String → Bool

/-- `permissions.check_sys(name, desc)?` — Ok on grant; on denial a
`PermissionDenied` error carrying the descriptor string (modelled from the
spec, which fixes the error kind and payload). -/
def checkSys (perms : Permissions) (name desc : String) : Except NodeError Unit :=
  if perms.allow name desc then Except.ok () else Except.error (NodeError.permissionDenied desc)

/-! ## Unix implementation (`#[cfg(unix)] mod priority`) -/

/-- `const PRIORITY_HIGH: i32 = -14;` in the unix module. -/
def UNIX_PRIORITY_HIGH : Int := -14

/-- OS-visible events of the Unix path: clearing errno, the `getpriority`
syscall (recording the errno value in effect when it is entered), and the
`setpriority` syscall with the exact arguments passed. -/
inductive UnixEvent where
  | setErrno (v : Int)
  | getpriorityCall (pid : Nat) (errnoAtCall : Int)
  | setpriorityCall (pid : Nat) (priority : Int)
  deriving DecidableEq

/-- Oracle for the Unix native calls. `getpriorityErrnoSet pid = some c`
means the `getpriority` call writes errno `c`; `none` means it leaves the
thread-local errno untouched. -/
structure UnixOS where
  getpriorityRet : Nat → Int
  getpriorityErrnoSet : Nat → Option Int
  setpriorityRet : Nat → Int → Int

/-- The errno value observed after the `getpriority` call, given that the
implementation cleared errno to 0 immediately before it. -/
def unixErrnoAfter (os : UnixOS) (pid : Nat) : Int :=
  (os.getpriorityErrnoSet pid).getD 0

/-- `priority::get_priority` (unix): `set_errno(Errno(0))`, call
`libc::getpriority(PRIO_PROCESS, pid)`, then match on the pair
`(raw_result, errno())`: `(-1, Errno(0))` gives `Ok(PRIORITY_HIGH)`,
`(-1, _)` gives the OS error, `(priority, _)` gives `Ok(priority)`.
Returns (result, errno state after the call, events); `errno0` is the
thread-local errno state on entry. -/
def unixGetPriority (os : UnixOS) (pid : Nat) (errno0 : Int) :
    Except NodeError Int × Int × List UnixEvent :=
  let errnoCleared : Int := 0
  let raw := os.getpriorityRet pid
  let errnoAfter := (os.getpriorityErrnoSet pid).getD errnoCleared
  let events := [UnixEvent.setErrno 0, UnixEvent.getpriorityCall pid errnoCleared]
  if raw = -1 ∧ errnoAfter = 0 then (Except.ok UNIX_PRIORITY_HIGH, errnoAfter, events)
  else if raw = -1 then (Except.error NodeError.osError, errnoAfter, events)
  else (Except.ok raw, errnoAfter, events)

/-- `priority::set_priority` (unix): call
`libc::setpriority(PRIO_PROCESS, pid, priority)` directly; `-1` gives the
OS error, anything else is `Ok(())`. -/
def unixSetPriority (os : UnixOS) (pid : Nat) (priority : Int) :
    Except NodeError Unit × List UnixEvent :=
  let r := os.setpriorityRet pid priority
  (if r = -1 then Except.error NodeError.osError else Except.ok (),
   [UnixEvent.setpriorityCall pid priority])

/-! ## Windows implementation (`#[cfg(windows)] mod priority`) -/

/-- `winapi::um::winbase::REALTIME_PRIORITY_CLASS` (0x100). -/
def REALTIME_PRIORITY_CLASS : Nat := 256
/-- `winapi::um::winbase::HIGH_PRIORITY_CLASS` (0x80). -/
def HIGH_PRIORITY_CLASS : Nat := 128
/-- `winapi::um::winbase::ABOVE_NORMAL_PRIORITY_CLASS` (0x8000). -/
def ABOVE_NORMAL_PRIORITY_CLASS : Nat := 32768
/-- `winapi::um::winbase::NORMAL_PRIORITY_CLASS` (0x20). -/
def NORMAL_PRIORITY_CLASS : Nat := 32
/-- `winapi::um::winbase::BELOW_NORMAL_PRIORITY_CLASS` (0x4000). -/
def BELOW_NORMAL_PRIORITY_CLASS : Nat := 16384
/-- `winapi::um::winbase::IDLE_PRIORITY_CLASS` (0x40). -/
def IDLE_PRIORITY_CLASS : Nat := 64

/-- `const PRIORITY_LOW: i32 = 19;` -/
def PRIORITY_LOW : Int := 19
/-- `const PRIORITY_BELOW_NORMAL: i32 = 10;` -/
def PRIORITY_BELOW_NORMAL : Int := 10
/-- `const PRIORITY_NORMAL: i32 = 0;` -/
def PRIORITY_NORMAL : Int := 0
/-- `const PRIORITY_ABOVE_NORMAL: i32 = -7;` -/
def PRIORITY_ABOVE_NORMAL : Int := -7
/-- `const PRIORITY_HIGH: i32 = -14;` -/
def PRIORITY_HIGH : Int := -14
/-- `const PRIORITY_HIGHEST: i32 = -20;` -/
def PRIORITY_HIGHEST : Int := -20

/-- OS-visible events of the Windows path, in call order. -/
inductive WinEvent where
  | getCurrentProcess
  | openProcess (pid : Nat)
  | getPriorityClassCall (handle : Nat)
  | setPriorityClassCall (handle : Nat) (cls : Nat)
  | closeHandle (handle : Nat)
  deriving DecidableEq

/-- Oracle for the Windows native calls. Handles are `Nat`, with `0`
standing for `NULL`; `GetCurrentProcess` returns the fixed pseudo-handle
`currentProcessHandle`, `openProcess pid` models
`OpenProcess(PROCESS_QUERY_LIMITED_INFORMATION, FALSE, pid)` (0 = failure),
`getPriorityClass` models `GetPriorityClass` (0 = failure), and
`setPriorityClass` models `SetPriorityClass` (`false` = `FALSE`). -/
structure WinOS where
  currentProcessHandle : Nat
  openProcess : Nat → Nat
  getPriorityClass : Nat → Nat
  setPriorityClass : Nat → Nat → Bool

/-- `let handle = if pid == 0 { GetCurrentProcess() } else { OpenProcess(..) }`,
shared verbatim by the Windows get and set paths. -/
def winHandle (os : WinOS) (pid : Nat) : Nat :=
  if pid = 0 then os.currentProcessHandle else os.openProcess pid

/-- The acquisition event matching `winHandle`. -/
def winAcquireEvents (pid : Nat) : List WinEvent :=
  if pid = 0 then [WinEvent.getCurrentProcess] else [WinEvent.openProcess pid]

/-- The `match GetPriorityClass(handle) { ... }` arm of the Windows
`get_priority`: 0 is the OS error; each of the six classes maps to its
fixed unified constant; any other value falls through to `PRIORITY_LOW`. -/
def windowsGetResult (cls : Nat) : Except NodeError Int :=
  if cls = 0 then Except.error NodeError.osError
  else if cls = REALTIME_PRIORITY_CLASS then Except.ok PRIORITY_HIGHEST
  else if cls = HIGH_PRIORITY_CLASS then Except.ok PRIORITY_HIGH
  else if cls = ABOVE_NORMAL_PRIORITY_CLASS then Except.ok PRIORITY_ABOVE_NORMAL
  else if cls = NORMAL_PRIORITY_CLASS then Except.ok PRIORITY_NORMAL
  else if cls = BELOW_NORMAL_PRIORITY_CLASS then Except.ok PRIORITY_BELOW_NORMAL
  else if cls = IDLE_PRIORITY_CLASS then Except.ok PRIORITY_LOW
  else Except.ok PRIORITY_LOW

/-- `priority::get_priority` (windows): acquire the handle (current process
for pid 0, else `OpenProcess`), `NULL` gives the OS error; otherwise query
the class, translate via `windowsGetResult`, and `CloseHandle` before
returning the stored result. -/
def winGetPriority (os : WinOS) (pid : Nat) :
    Except NodeError Int × List WinEvent :=
  let handle := winHandle os pid
  if handle = 0 then
    (Except.error NodeError.osError, winAcquireEvents pid)
  else
    let result := windowsGetResult (os.getPriorityClass handle)
    (result,
     winAcquireEvents pid ++ [WinEvent.getPriorityClassCall handle, WinEvent.closeHandle handle])

/-- The `else if` chain of the Windows `set_priority` choosing the native
priority class once the value is known to lie in
`[PRIORITY_HIGHEST, PRIORITY_LOW]`. -/
def windowsClassOf (priority : Int) : Nat :=
  if priority < PRIORITY_HIGH then REALTIME_PRIORITY_CLASS
  else if priority < PRIORITY_ABOVE_NORMAL then HIGH_PRIORITY_CLASS
  else if priority < PRIORITY_NORMAL then ABOVE_NORMAL_PRIORITY_CLASS
  else if priority < PRIORITY_BELOW_NORMAL then NORMAL_PRIORITY_CLASS
  else if priority < PRIORITY_LOW then BELOW_NORMAL_PRIORITY_CLASS
  else IDLE_PRIORITY_CLASS

/-- `priority::set_priority` (windows), translated with its exact control
flow: the handle is acquired first; a `NULL` handle gives the OS error;
then the range test `priority < PRIORITY_HIGHEST || priority > PRIORITY_LOW`
does `return Err(type_error("Invalid priority"))` — an early return out of
the function that never reaches the `CloseHandle(handle)` call; otherwise
the banded class is applied via `SetPriorityClass` (`FALSE` gives the OS
error) and the handle is closed before returning the stored result. -/
def winSetPriority (os : WinOS) (pid : Nat) (priority : Int) :
    Except NodeError Unit × List WinEvent :=
  let handle := winHandle os pid
  if handle = 0 then
    (Except.error NodeError.osError, winAcquireEvents pid)
  else
    if priority < PRIORITY_HIGHEST ∨ priority > PRIORITY_LOW then
      (Except.error (NodeError.invalidArgument "Invalid priority"), winAcquireEvents pid)
    else
      let priorityClass := windowsClassOf priority
      let result := if os.setPriorityClass handle priorityClass then Except.ok ()
                    else Except.error NodeError.osError
      (result,
       winAcquireEvents pid ++
         [WinEvent.setPriorityClassCall handle priorityClass, WinEvent.closeHandle handle])

/-! ## Entry points (`op_node_os_*`), one per platform variant -/

/-- `op_node_os_get_priority` with the Windows translator: check
`("getPriority", "node:os.getPriority()")` first, then delegate. -/
def opNodeOsGetPriorityWin (perms : Permissions) (os : WinOS) (pid : Nat) :
    Except NodeError Int × List WinEvent :=
  match checkSys perms "getPriority" "node:os.getPriority()" with
  | Except.error e => (Except.error e, [])
  | Except.ok _ => winGetPriority os pid

/-- `op_node_os_get_priority` with the Unix translator. -/
def opNodeOsGetPriorityUnix (perms : Permissions) (os : UnixOS) (pid : Nat) (errno0 : Int) :
    Except NodeError Int × Int × List UnixEvent :=
  match checkSys perms "getPriority" "node:os.getPriority()" with
  | Except.error e => (Except.error e, errno0, [])
  | Except.ok _ => unixGetPriority os pid errno0

/-- `op_node_os_set_priority` with the Windows translator: check
`("setPriority", "node:os.setPriority()")` first, then delegate. -/
def opNodeOsSetPriorityWin (perms : Permissions) (os : WinOS) (pid : Nat) (priority : Int) :
    Except NodeError Unit × List WinEvent :=
  match checkSys perms "setPriority" "node:os.setPriority()" with
  | Except.error e => (Except.error e, [])
  | Except.ok _ => winSetPriority os pid priority

/-- `op_node_os_set_priority` with the Unix translator. -/
def opNodeOsSetPriorityUnix (perms : Permissions) (os : UnixOS) (pid : Nat) (priority : Int) :
    Except NodeError Unit × List UnixEvent :=
  match checkSys perms "setPriority" "node:os.setPriority()" with
  | Except.error e => (Except.error e, [])
  | Except.ok _ => unixSetPriority os pid priority

/-- `op_node_os_username`: check `("userInfo", "node:os.userInfo()")`, then
`Ok(whoami::username())`; the name the external `whoami` crate reports is
the parameter `osUsername`. -/
def opNodeOsUsername (perms : Permissions) (osUsername : String) :
    Except NodeError String :=
  match checkSys perms "userInfo" "node:os.userInfo()" with
  | Except.error e => Except.error e
  | Except.ok _ => Except.ok osUsername

/-! ## Spec-side definitions (written from the claims' words, for comparison) -/

/-- Spec-side read mapping of claim C5: realtime→-20, high→-14,
above-normal→-7, normal→0, below-normal→10, idle→19, any other nonzero
class→19, and a zero class query result is the OS error. -/
def specGetResult (cls : Nat) : Except NodeError Int :=
  if cls = 0 then Except.error NodeError.osError
  else if cls = REALTIME_PRIORITY_CLASS then Except.ok (-20)
  else if cls = HIGH_PRIORITY_CLASS then Except.ok (-14)
  else if cls = ABOVE_NORMAL_PRIORITY_CLASS then Except.ok (-7)
  else if cls = NORMAL_PRIORITY_CLASS then Except.ok 0
  else if cls = BELOW_NORMAL_PRIORITY_CLASS then Except.ok 10
  else if cls = IDLE_PRIORITY_CLASS then Except.ok 19
  else Except.ok 19

/-- Spec-side write mapping of claim C6: the six half-open bands
v < -14 → realtime, [-14,-7) → high, [-7,0) → above-normal,
[0,10) → normal, [10,19) → below-normal, 19 → idle. -/
def specClassOf (v : Int) : Nat :=
  if v < -14 then REALTIME_PRIORITY_CLASS
  else if -14 ≤ v ∧ v < -7 then HIGH_PRIORITY_CLASS
  else if -7 ≤ v ∧ v < 0 then ABOVE_NORMAL_PRIORITY_CLASS
  else if 0 ≤ v ∧ v < 10 then NORMAL_PRIORITY_CLASS
  else if 10 ≤ v ∧ v < 19 then BELOW_NORMAL_PRIORITY_CLASS
  else IDLE_PRIORITY_CLASS

/-- Band index of a unified value, 0 = realtime band … 5 = idle band,
following the six breakpoints of the claims. -/
def bandIdx (v : Int) : Nat :=
  if v < -14 then 0
  else if v < -7 then 1
  else if v < 0 then 2
  else if v < 10 then 3
  else if v < 19 then 4
  else 5

/-- Native scheduling rank of a Windows priority class in the order of
claim C10: realtime (0, highest) > high (1) > above-normal (2) >
normal (3) > below-normal (4) > idle (5, lowest). -/
def classRank (cls : Nat) : Nat :=
  if cls = REALTIME_PRIORITY_CLASS then 0
  else if cls = HIGH_PRIORITY_CLASS then 1
  else if cls = ABOVE_NORMAL_PRIORITY_CLASS then 2
  else if cls = NORMAL_PRIORITY_CLASS then 3
  else if cls = BELOW_NORMAL_PRIORITY_CLASS then 4
  else 5

/-- The unified value the Windows read mapping assigns to a (nonzero)
priority class: the pure part of `windowsGetResult`. -/
def unifiedOfClass (cls : Nat) : Int :=
  if cls = REALTIME_PRIORITY_CLASS then PRIORITY_HIGHEST
  else if cls = HIGH_PRIORITY_CLASS then PRIORITY_HIGH
  else if cls = ABOVE_NORMAL_PRIORITY_CLASS then PRIORITY_ABOVE_NORMAL
  else if cls = NORMAL_PRIORITY_CLASS then PRIORITY_NORMAL
  else if cls = BELOW_NORMAL_PRIORITY_CLASS then PRIORITY_BELOW_NORMAL
  else PRIORITY_LOW

/-- Is the event a `CloseHandle` call? -/
def isCloseHandle : WinEvent → Bool
  | WinEvent.closeHandle _ => true
  | _ => false

/-! ## Concrete oracles used as witnesses -/

/-- A Windows oracle on which every call succeeds: `OpenProcess` yields
handle 7, the current-process pseudo-handle is 5, every queried class is
`NORMAL_PRIORITY_CLASS`, and `SetPriorityClass` succeeds. -/
def wosDemo : WinOS :=
  { currentProcessHandle := 5
    openProcess := fun _ => 7
    getPriorityClass := fun _ => NORMAL_PRIORITY_CLASS
    setPriorityClass := fun _ _ => true }

/-- A Windows oracle on which `OpenProcess` fails (returns `NULL`). -/
def wosNoOpen : WinOS :=
  { wosDemo with openProcess := fun _ => 0 }

/-- A Unix oracle on which `getpriority` returns -1 without touching errno
(the legitimate "highest priority" result) and `setpriority` succeeds. -/
def uosDemo : UnixOS :=
  { getpriorityRet := fun _ => -1
    getpriorityErrnoSet := fun _ => none
    setpriorityRet := fun _ _ => 0 }

/-- A permission oracle denying every capability. -/
def permsDenyAll : Permissions := ⟨fun _ _ => false⟩

/-- A permission oracle granting every capability. -/
def permsAllowAll : Permissions := ⟨fun _ _ => true⟩

/-! ## Helper lemmas -/

/-- The write-side if-chain agrees with the spec-side six-band table. -/
lemma windowsClassOf_eq_specClassOf (v : Int) : windowsClassOf v = specClassOf v := by
  simp only [windowsClassOf, specClassOf, PRIORITY_HIGH, PRIORITY_ABOVE_NORMAL,
    PRIORITY_NORMAL, PRIORITY_BELOW_NORMAL, PRIORITY_LOW]
  split_ifs <;> first | rfl | omega

/-- The write-side chain only produces the six class constants, never 0. -/
lemma windowsClassOf_ne_zero (v : Int) : windowsClassOf v ≠ 0 := by
  simp only [windowsClassOf, REALTIME_PRIORITY_CLASS, HIGH_PRIORITY_CLASS,
    ABOVE_NORMAL_PRIORITY_CLASS, NORMAL_PRIORITY_CLASS, BELOW_NORMAL_PRIORITY_CLASS,
    IDLE_PRIORITY_CLASS]
  split_ifs <;> omega

/-- On a nonzero class the read mapping succeeds with `unifiedOfClass`. -/
lemma windowsGetResult_ok (cls : Nat) (h : cls ≠ 0) :
    windowsGetResult cls = Except.ok (unifiedOfClass cls) := by
  simp only [windowsGetResult, unifiedOfClass]
  split_ifs <;> simp_all

/-- The unified value read back from a class sits in the band whose index
is that class's rank. -/
lemma bandIdx_unifiedOfClass (c : Nat) : bandIdx (unifiedOfClass c) = classRank c := by
  simp only [unifiedOfClass, classRank]
  split_ifs <;> rfl

/-- The rank of the selected class is exactly the band index of the input. -/
lemma classRank_windowsClassOf (v : Int) : classRank (windowsClassOf v) = bandIdx v := by
  simp only [windowsClassOf, classRank, bandIdx, REALTIME_PRIORITY_CLASS,
    HIGH_PRIORITY_CLASS, ABOVE_NORMAL_PRIORITY_CLASS, NORMAL_PRIORITY_CLASS,
    BELOW_NORMAL_PRIORITY_CLASS, IDLE_PRIORITY_CLASS, PRIORITY_HIGH,
    PRIORITY_ABOVE_NORMAL, PRIORITY_NORMAL, PRIORITY_BELOW_NORMAL, PRIORITY_LOW]
  split_ifs <;> omega

/-- Write then read lands in the same band: the composite
`unifiedOfClass ∘ windowsClassOf` preserves `bandIdx`. -/
lemma bandIdx_roundTrip (v : Int) : bandIdx (unifiedOfClass (windowsClassOf v)) = bandIdx v := by
  rw [bandIdx_unifiedOfClass, classRank_windowsClassOf]

/-- `bandIdx` is monotone. -/
lemma bandIdx_mono {u v : Int} (h : u ≤ v) : bandIdx u ≤ bandIdx v := by
  simp only [bandIdx]
  split_ifs <;> omega

/-- The read-side chain agrees with the spec-side mapping of claim C5. -/
lemma windowsGetResult_eq_specGetResult (c : Nat) : windowsGetResult c = specGetResult c := by
  simp only [windowsGetResult, specGetResult, PRIORITY_HIGHEST, PRIORITY_HIGH,
    PRIORITY_ABOVE_NORMAL, PRIORITY_NORMAL, PRIORITY_BELOW_NORMAL, PRIORITY_LOW]

/-! ## Claims -/

/-- Claim C1 (refuted, code bug): the translated Windows `set_priority`
does NOT validate the range before handle acquisition. With an oracle whose
`OpenProcess` succeeds (handle 7), `set_priority(1234, 25)` fails with the
`invalidArgument` error but its event trace contains the `OpenProcess`
call; likewise for `set_priority(4321, -25)`; and when `OpenProcess` fails,
the same out-of-range value yields `osError` instead of `invalidArgument`. -/
theorem win_set_priority_validates_after_handle :
    (winSetPriority wosDemo 1234 25).1 =
      Except.error (NodeError.invalidArgument "Invalid priority") ∧
    (winSetPriority wosDemo 1234 25).2 = [WinEvent.openProcess 1234] ∧
    (winSetPriority wosDemo 4321 (-25)).2 = [WinEvent.openProcess 4321] ∧
    (winSetPriority wosNoOpen 1234 25).1 = Except.error NodeError.osError :=
  ⟨rfl, rfl, rfl, rfl⟩

/-- Claim C2 (refuted, code bug): on the validation-error exit of the
Windows `set_priority`, the early `return Err(type_error(..))` skips
`CloseHandle`: the trace of `set_priority(1234, 25)` contains no
`closeHandle` event, while the success path of `set_priority(1234, 15)`
and every path of `get_priority(1234)` do close handle 7. -/
theorem win_set_priority_invalid_leaks_handle :
    (winSetPriority wosDemo 1234 25).1 =
      Except.error (NodeError.invalidArgument "Invalid priority") ∧
    (winSetPriority wosDemo 1234 25).2.any isCloseHandle = false ∧
    (winGetPriority wosDemo 1234).2 =
      [WinEvent.openProcess 1234, WinEvent.getPriorityClassCall 7, WinEvent.closeHandle 7] ∧
    (winSetPriority wosDemo 1234 15).2 =
      [WinEvent.openProcess 1234,
       WinEvent.setPriorityClassCall 7 BELOW_NORMAL_PRIORITY_CLASS,
       WinEvent.closeHandle 7] :=
  ⟨rfl, rfl, rfl, rfl⟩

/-- Claim C3: when the capability check denies the operation, each of the
five entry-point variants (get/set on either platform, username) returns
the `permissionDenied` error carrying the fixed descriptor and performs no
OS-visible event (empty trace; errno untouched on Unix). -/
theorem perm_denied_blocks_all_ops (perms : Permissions) (wos : WinOS) (uos : UnixOS)
    (pid : Nat) (v : Int) (errno0 : Int) (name : String)
    (hg : perms.allow "getPriority" "node:os.getPriority()" = false)
    (hs : perms.allow "setPriority" "node:os.setPriority()" = false)
    (hu : perms.allow "userInfo" "node:os.userInfo()" = false) :
    opNodeOsGetPriorityWin perms wos pid =
      (Except.error (NodeError.permissionDenied "node:os.getPriority()"), []) ∧
    opNodeOsGetPriorityUnix perms uos pid errno0 =
      (Except.error (NodeError.permissionDenied "node:os.getPriority()"), errno0, []) ∧
    opNodeOsSetPriorityWin perms wos pid v =
      (Except.error (NodeError.permissionDenied "node:os.setPriority()"), []) ∧
    opNodeOsSetPriorityUnix perms uos pid v =
      (Except.error (NodeError.permissionDenied "node:os.setPriority()"), []) ∧
    opNodeOsUsername perms name =
      Except.error (NodeError.permissionDenied "node:os.userInfo()") := by
  simp [opNodeOsGetPriorityWin, opNodeOsGetPriorityUnix, opNodeOsSetPriorityWin,
    opNodeOsSetPriorityUnix, opNodeOsUsername, checkSys, hg, hs, hu]

/-- Witness for C3: the all-denying permission oracle blocks the Windows
get path and the username path with empty traces. -/
theorem perm_denied_blocks_all_ops_witness :
    (permsDenyAll.allow "getPriority" "node:os.getPriority()" = false ∧
     permsDenyAll.allow "setPriority" "node:os.setPriority()" = false ∧
     permsDenyAll.allow "userInfo" "node:os.userInfo()" = false) ∧
    opNodeOsGetPriorityWin permsDenyAll wosDemo 3 =
      (Except.error (NodeError.permissionDenied "node:os.getPriority()"), []) ∧
    opNodeOsUsername permsDenyAll "alice" =
      Except.error (NodeError.permissionDenied "node:os.userInfo()") :=
  ⟨⟨rfl, rfl, rfl⟩,
   (perm_denied_blocks_all_ops permsDenyAll wosDemo uosDemo 3 4 9 "alice" rfl rfl rfl).1,
   (perm_denied_blocks_all_ops permsDenyAll wosDemo uosDemo 3 4 9 "alice" rfl rfl rfl).2.2.2.2⟩

/-- Claim C4: the Unix `get_priority` clears errno before the syscall (the
trace records errno 0 at the call, for every entry errno state) and then
branches on (raw result, errno after): (-1, 0) gives `Ok(-14)`, (-1, e≠0)
gives the OS error, and any other raw value is returned unchanged. -/
theorem unix_get_priority_errno_branching (os : UnixOS) (pid : Nat) (errno0 : Int) :
    (unixGetPriority os pid errno0).2.2 =
      [UnixEvent.setErrno 0, UnixEvent.getpriorityCall pid 0] ∧
    (os.getpriorityRet pid = -1 → unixErrnoAfter os pid = 0 →
      (unixGetPriority os pid errno0).1 = Except.ok (-14)) ∧
    (os.getpriorityRet pid = -1 → unixErrnoAfter os pid ≠ 0 →
      (unixGetPriority os pid errno0).1 = Except.error NodeError.osError) ∧
    (os.getpriorityRet pid ≠ -1 →
      (unixGetPriority os pid errno0).1 = Except.ok (os.getpriorityRet pid)) := by
  refine ⟨?_, fun ha hb => ?_, fun ha hb => ?_, fun ha => ?_⟩
  · simp only [unixGetPriority]
    split_ifs <;> rfl
  · simp_all [unixGetPriority, unixErrnoAfter, UNIX_PRIORITY_HIGH]
  · simp_all [unixGetPriority, unixErrnoAfter, UNIX_PRIORITY_HIGH]
  · simp_all [unixGetPriority, unixErrnoAfter, UNIX_PRIORITY_HIGH]

/-- Witness for C4 at the raw -1, clean-errno corner: the result is the
-14 sentinel and the trace shows errno 0 at the call despite entering with
errno 7. -/
theorem unix_get_priority_errno_branching_witness :
    (uosDemo.getpriorityRet 5 = -1 ∧ unixErrnoAfter uosDemo 5 = 0) ∧
    (unixGetPriority uosDemo 5 7).1 = Except.ok (-14) ∧
    (unixGetPriority uosDemo 5 7).2.2 =
      [UnixEvent.setErrno 0, UnixEvent.getpriorityCall 5 0] :=
  ⟨⟨rfl, rfl⟩, (unix_get_priority_errno_branching uosDemo 5 7).2.1 rfl rfl,
   (unix_get_priority_errno_branching uosDemo 5 7).1⟩

/-- Claim C5: on the Windows path, whenever a (nonzero) handle is obtained
the returned value is exactly the spec's table applied to whatever class
the OS reports — realtime→-20, high→-14, above-normal→-7, normal→0,
below-normal→10, idle→19, any unknown nonzero class→19 — and a zero class
query result becomes the OS error; the handle is queried and closed. -/
theorem win_get_priority_class_mapping (os : WinOS) (pid : Nat)
    (hh : winHandle os pid ≠ 0) :
    (winGetPriority os pid).1 = specGetResult (os.getPriorityClass (winHandle os pid)) ∧
    (winGetPriority os pid).2 =
      winAcquireEvents pid ++
        [WinEvent.getPriorityClassCall (winHandle os pid),
         WinEvent.closeHandle (winHandle os pid)] := by
  constructor
  · simp only [winGetPriority, if_neg hh]
    exact windowsGetResult_eq_specGetResult _
  · simp [winGetPriority, if_neg hh]

/-- Witness for C5 on the normal-class oracle: pid 0 yields `Ok 0`. -/
theorem win_get_priority_class_mapping_witness :
    winHandle wosDemo 0 ≠ 0 ∧
    (winGetPriority wosDemo 0).1 =
      specGetResult (wosDemo.getPriorityClass (winHandle wosDemo 0)) ∧
    specGetResult (wosDemo.getPriorityClass (winHandle wosDemo 0)) = Except.ok 0 :=
  ⟨by decide, (win_get_priority_class_mapping wosDemo 0 (by decide)).1, rfl⟩

/-- Claim C6: for every unified value in [-20, 19] the Windows
`set_priority` selects the native class by the spec's six half-open bands
(`specClassOf`), and, when a handle is obtained, applies exactly that class
via `SetPriorityClass`. -/
theorem win_set_priority_band_mapping (os : WinOS) (pid : Nat) (v : Int)
    (h1 : -20 ≤ v) (h2 : v ≤ 19) (hh : winHandle os pid ≠ 0) :
    windowsClassOf v = specClassOf v ∧
    (winSetPriority os pid v).2 =
      winAcquireEvents pid ++
        [WinEvent.setPriorityClassCall (winHandle os pid) (specClassOf v),
         WinEvent.closeHandle (winHandle os pid)] := by
  have hr : ¬(v < PRIORITY_HIGHEST ∨ v > PRIORITY_LOW) := by
    simp only [PRIORITY_HIGHEST, PRIORITY_LOW]
    omega
  refine ⟨windowsClassOf_eq_specClassOf v, ?_⟩
  simp only [winSetPriority, if_neg hh, if_neg hr, windowsClassOf_eq_specClassOf]

/-- Witness for C6 at v = 12: the below-normal class is selected and
applied to handle 7. -/
theorem win_set_priority_band_mapping_witness :
    ((-20 : Int) ≤ 12 ∧ (12 : Int) ≤ 19 ∧ winHandle wosDemo 3 ≠ 0) ∧
    windowsClassOf 12 = specClassOf 12 ∧
    (winSetPriority wosDemo 3 12).2 =
      winAcquireEvents 3 ++
        [WinEvent.setPriorityClassCall (winHandle wosDemo 3) (specClassOf 12),
         WinEvent.closeHandle (winHandle wosDemo 3)] :=
  ⟨⟨by decide, by decide, by decide⟩,
   (win_set_priority_band_mapping wosDemo 3 12 (by decide) (by decide) (by decide)).1,
   (win_set_priority_band_mapping wosDemo 3 12 (by decide) (by decide) (by decide)).2⟩

/-- Claim C7: for every unified value in [-20, 19], writing through the
band mapping and reading back through the class table succeeds and lands
in the same band; in particular every v in [10, 19) selects the
below-normal class, which reads back as exactly 10. -/
theorem win_band_round_trip (v : Int) (h1 : -20 ≤ v) (h2 : v ≤ 19) :
    windowsGetResult (windowsClassOf v) = Except.ok (unifiedOfClass (windowsClassOf v)) ∧
    bandIdx (unifiedOfClass (windowsClassOf v)) = bandIdx v ∧
    (10 ≤ v → v < 19 →
      windowsClassOf v = BELOW_NORMAL_PRIORITY_CLASS ∧
      unifiedOfClass (windowsClassOf v) = 10) := by
  refine ⟨windowsGetResult_ok _ (windowsClassOf_ne_zero v), bandIdx_roundTrip v,
    fun ha hb => ?_⟩
  have hc : windowsClassOf v = BELOW_NORMAL_PRIORITY_CLASS := by
    simp only [windowsClassOf, PRIORITY_HIGH, PRIORITY_ABOVE_NORMAL, PRIORITY_NORMAL,
      PRIORITY_BELOW_NORMAL, PRIORITY_LOW]
    split_ifs <;> first | rfl | omega
  exact ⟨hc, by rw [hc]; rfl⟩

/-- Witness for C7 at v = 12: below-normal, reading back as 10 (band 4). -/
theorem win_band_round_trip_witness :
    ((-20 : Int) ≤ 12 ∧ (12 : Int) ≤ 19) ∧
    windowsGetResult (windowsClassOf 12) = Except.ok (unifiedOfClass (windowsClassOf 12)) ∧
    windowsClassOf 12 = BELOW_NORMAL_PRIORITY_CLASS ∧
    unifiedOfClass (windowsClassOf 12) = 10 :=
  ⟨⟨by decide, by decide⟩, (win_band_round_trip 12 (by decide) (by decide)).1,
   (win_band_round_trip 12 (by decide) (by decide)).2.2 (by decide) (by decide)⟩

/-- Claim C8: the Unix `set_priority` performs the `setpriority` syscall
unconditionally with the exact pid and unified value (no range
validation), maps a -1 return to the OS error and any other return to
success, and can never produce an `invalidArgument` error. -/
theorem unix_set_priority_direct_syscall (os : UnixOS) (pid : Nat) (v : Int) :
    (unixSetPriority os pid v).2 = [UnixEvent.setpriorityCall pid v] ∧
    (os.setpriorityRet pid v = -1 →
      (unixSetPriority os pid v).1 = Except.error NodeError.osError) ∧
    (os.setpriorityRet pid v ≠ -1 → (unixSetPriority os pid v).1 = Except.ok ()) ∧
    (∀ m : String, (unixSetPriority os pid v).1 ≠ Except.error (NodeError.invalidArgument m)) := by
  refine ⟨rfl, fun h => ?_, fun h => ?_, fun m => ?_⟩
  · simp [unixSetPriority, h]
  · simp [unixSetPriority, h]
  · simp only [unixSetPriority]
    split_ifs <;> simp

/-- Witness for C8 at the out-of-range value 25, which Unix passes through
to the syscall unvalidated and reports as success when the OS accepts it. -/
theorem unix_set_priority_direct_syscall_witness :
    uosDemo.setpriorityRet 5 25 ≠ -1 ∧
    (unixSetPriority uosDemo 5 25).1 = Except.ok () ∧
    (unixSetPriority uosDemo 5 25).2 = [UnixEvent.setpriorityCall 5 25] :=
  ⟨by decide, (unix_set_priority_direct_syscall uosDemo 5 25).2.2.1 (by decide),
   (unix_set_priority_direct_syscall uosDemo 5 25).1⟩

/-- Claim C9: whenever the userInfo capability check grants, the username
operation returns Ok with the OS-reported name — there is no other error
path. -/
theorem username_ok_when_permitted (perms : Permissions) (name : String)
    (h : perms.allow "userInfo" "node:os.userInfo()" = true) :
    opNodeOsUsername perms name = Except.ok name := by
  simp [opNodeOsUsername, checkSys, h]

/-- Witness for C9 with the all-granting oracle. -/
theorem username_ok_when_permitted_witness :
    permsAllowAll.allow "userInfo" "node:os.userInfo()" = true ∧
    opNodeOsUsername permsAllowAll "alice" = Except.ok "alice" :=
  ⟨rfl, username_ok_when_permitted permsAllowAll "alice" rfl⟩

/-- Claim C10: the Windows write-side band mapping is monotone — a lower
(higher-priority) unified value in [-20, 19] never selects a class of
strictly lower native scheduling priority, in the rank order
realtime (0) > high (1) > above-normal (2) > normal (3) >
below-normal (4) > idle (5). -/
theorem win_band_mapping_monotone (u v : Int)
    (hu : -20 ≤ u) (huv : u ≤ v) (hv : v ≤ 19) :
    classRank (windowsClassOf u) ≤ classRank (windowsClassOf v) := by
  rw [classRank_windowsClassOf, classRank_windowsClassOf]
  exact bandIdx_mono huv

/-- Witness for C10 at u = -5, v = 12. -/
theorem win_band_mapping_monotone_witness :
    ((-20 : Int) ≤ -5 ∧ (-5 : Int) ≤ 12 ∧ (12 : Int) ≤ 19) ∧
    classRank (windowsClassOf (-5)) ≤ classRank (windowsClassOf 12) :=
  ⟨⟨by decide, by decide, by decide⟩,
   win_band_mapping_monotone (-5) 12 (by decide) (by decide) (by decide)⟩
